import Mathlib

/-!
# Receipt Reconciliation Engine — verification development

Shallow embedding of the receipt-matcher subsystem:

* field-extraction primitives (`parseCurrency` from `src/utils/helpers.js`),
* the generic and vendor-specific parsers' result assembly, confidence
  scoring and null-gating (`src/parsers/vendors/generic.js`,
  `src/parsers/vendors/alpha-supply.js`),
* the parser router (`src/parsers/index.js`) over the vendor-parser
  registry (`src/parsers/vendors/index.js`) and the static vendor
  configuration (`src/config/vendors.js`),
* the transaction matcher (`src/services/quickbooks/matcher.js`):
  candidate scoring, best-match selection with the 80-point threshold,
  entity find-or-create with per-name caches,
* the receipt data model and its mutators (`src/models/receipt.js`),
* the sync orchestrator (`src/services/quickbooks/uploader.js`) and the
  pipeline driver (`src/services/scheduler.js`).

Modelling conventions (uniform across the file):

* JavaScript numbers carrying dollar amounts are modelled as `ℚ`.
  A JS `null`/`undefined` field is `Option.none`.  JS truthiness is made
  explicit: `0` and the empty string are falsy (`qTruthy`, `sTruthy`).
* Normalized `YYYY-MM-DD` date strings are modelled as day numbers
  (`Int`); equality of the strings is equality of the day numbers and
  `dayjs(a).diff(dayjs(b), 'day')` is the signed difference `a - b`.
* Asynchronous external calls (QuickBooks queries/creates, Gmail) are
  modelled by an environment record of `Except`-valued oracles; a JS
  `throw` is the `.error` case, and `try/catch` is a `match` on it.
* The regex engine is modelled by its outcome: each parser consumes an
  extraction record holding, per field, the value its regex cascade
  produced from the text (`none` when no pattern matched).  The
  combination logic downstream of the regexes — JS-truthiness fallbacks,
  cascade early exit, confidence computation, the final null gate — is
  translated statement by statement.
* Wall-clock timestamps (`createdAt`, `updatedAt`, `syncedAt`) and log
  output are dropped: no claim mentions them.
-/

namespace RLT

/-! ## JS truthiness helpers -/

/-- JS truthiness of a nullable number: `null`, `undefined` and `0` are
falsy. -/
def qTruthy : Option ℚ → Bool
  | none => false
  | some q => decide (q ≠ 0)

/-- JS truthiness of a nullable string: `null`, `undefined` and `""` are
falsy. -/
def sTruthy : Option String → Bool
  | none => false
  | some s => !s.isEmpty

/-- JS `a || b` on nullable strings. -/
def jsOrS (a b : Option String) : Option String :=
  if sTruthy a then a else b

/-! ## Field extraction primitives (`src/utils/helpers.js`) -/

def isDigitChar (c : Char) : Bool := '0' ≤ c && c ≤ '9'

/-- Numeric value of a digit sequence (most significant first). -/
def digitsToNat (l : List Char) : Nat :=
  l.foldl (fun n c => 10 * n + (c.toNat - '0'.toNat)) 0

/-- JS `parseFloat` restricted to the shapes the currency regexes
capture (digit runs with an optional single decimal point; no sign, no
exponent).  Trailing non-numeric characters are ignored, exactly as
`parseFloat` ignores them; an input with no leading digits and no
leading `.digits` is `NaN`, i.e. `none`. -/
def parseFloatQ (l : List Char) : Option ℚ :=
  let intPart := l.takeWhile isDigitChar
  let rest := l.dropWhile isDigitChar
  match rest with
  | '.' :: rest2 =>
    let fracPart := rest2.takeWhile isDigitChar
    if intPart.isEmpty && fracPart.isEmpty then none
    else some ((digitsToNat intPart : ℚ) + (digitsToNat fracPart : ℚ) / (10 ^ fracPart.length : ℚ))
  | _ => if intPart.isEmpty then none else some (digitsToNat intPart : ℚ)

/-- `parseCurrency` from `src/utils/helpers.js`: strip `$`, `,` and
whitespace, then `parseFloat`; `null` on empty input or `NaN`. -/
def parseCurrency (s : String) : Option ℚ :=
  if s.isEmpty then none
  else parseFloatQ (s.data.filter (fun c => !(c = '$' || c = ',' || c.isWhitespace)))

/-- A rational is a whole number of cents. -/
def centsPrecision (q : ℚ) : Prop := (q * 100).den = 1

instance : DecidablePred centsPrecision := fun q =>
  inferInstanceAs (Decidable ((q * 100).den = 1))

/-! ## Parsed Receipt data model -/

inductive Confidence where
  | low
  | medium
  | high
deriving DecidableEq, Repr

/-- Rank used to compare confidence labels. -/
def Confidence.rank : Confidence → Nat
  | .low => 0
  | .medium => 1
  | .high => 2

structure LineItem where
  description : String
  sku : Option String := none
  quantity : Nat := 1
  unitPrice : Option ℚ := none
  totalPrice : Option ℚ := none
deriving DecidableEq, Repr

/-- The normalized result every parser returns (`ParsedReceipt` in the
spec).  Dates are day numbers of the normalized `YYYY-MM-DD` string. -/
structure ParsedReceipt where
  total : Option ℚ := none
  subtotal : Option ℚ := none
  tax : Option ℚ := none
  shipping : Option ℚ := none
  date : Option Int := none
  orderNumber : Option String := none
  invoiceNumber : Option String := none
  poNumber : Option String := none
  accountNumber : Option String := none
  cardLast4 : Option String := none
  paymentMethod : Option String := none
  jobName : Option String := none
  lineItems : List LineItem := []
  confidence : Confidence := .low
deriving DecidableEq, Repr

/-- A `ParsedReceipt` with every field empty. -/
def emptyParsed : ParsedReceipt := {}

/-! ## Generic parser (`src/parsers/vendors/generic.js`) -/

/-- `GenericParser.calculateConfidence`, the point total:
`+2` truthy total, `+2` date, `+1` order or invoice number, `+1` card
last-4, `+1` any line item. -/
def confidenceScore (r : ParsedReceipt) : Nat :=
  (if qTruthy r.total then 2 else 0)
  + (if r.date.isSome then 2 else 0)
  + (if sTruthy r.orderNumber || sTruthy r.invoiceNumber then 1 else 0)
  + (if sTruthy r.cardLast4 then 1 else 0)
  + (if 0 < r.lineItems.length then 1 else 0)

/-- Threshold step of `GenericParser.calculateConfidence`. -/
def labelOfScore (s : Nat) : Confidence :=
  if 5 ≤ s then .high else if 3 ≤ s then .medium else .low

/-- `GenericParser.calculateConfidence`. -/
def calculateConfidence (r : ParsedReceipt) : Confidence :=
  labelOfScore (confidenceScore r)

/-- The confidence label as the claim words it, as a function of the
five presence flags: `+2` total, `+2` date, `+1` reference number, `+1`
card suffix, `+1` line item; `high` at `5`, `medium` at `3`, else
`low`.  Stated separately from `calculateConfidence` so the two can be
compared. -/
def claimConfidence (total date ref card items : Bool) : Confidence :=
  let s := (if total then 2 else 0) + (if date then 2 else 0)
    + (if ref then 1 else 0) + (if card then 1 else 0) + (if items then 1 else 0)
  if 5 ≤ s then .high else if 3 ≤ s then .medium else .low

/-- Pointwise order on the five confidence-relevant presence flags of
two parse results: every flag set on `r1` is also set on `r2`. -/
def confFlagsLe (r1 r2 : ParsedReceipt) : Bool :=
  (!qTruthy r1.total || qTruthy r2.total)
  && (!r1.date.isSome || r2.date.isSome)
  && (!(sTruthy r1.orderNumber || sTruthy r1.invoiceNumber)
      || (sTruthy r2.orderNumber || sTruthy r2.invoiceNumber))
  && (!sTruthy r1.cardLast4 || sTruthy r2.cardLast4)
  && (!decide (0 < r1.lineItems.length) || decide (0 < r2.lineItems.length))

/-- Outcome of the generic parser's regex phase on a text, one field per
source extraction step (`none` = the pattern did not match, or matched
with an unparseable value). -/
structure GenericExtraction where
  /-- `text.match(extractors.total)` fed through `parseCurrency`. -/
  totalRegex : Option ℚ := none
  /-- `extractLargestAmount(text)` fallback. -/
  largestAmount : Option ℚ := none
  /-- `text.match(extractors.date)` fed through `parseDate`. -/
  dateRegex : Option Int := none
  /-- `extractMostRecentDate(text)` fallback. -/
  mostRecentDate : Option Int := none
  orderNumber : Option String := none
  invoiceNumber : Option String := none
  /-- `text.match(extractors.cardLast4)` capture. -/
  cardRegex : Option String := none
  /-- `extractCardLast4(text)` fallback. -/
  cardFallback : Option String := none
  paymentMethod : Option String := none
  jobName : Option String := none
  lineItems : List LineItem := []
deriving DecidableEq, Repr

namespace GenericParser

/-- Field assembly of `GenericParser.parse`: primary pattern, then the
heuristic fallback when the primary value is JS-falsy (`!result.total`,
`!result.date`, `!result.cardLast4`). -/
def buildResult (e : GenericExtraction) : ParsedReceipt :=
  { total := if qTruthy e.totalRegex then e.totalRegex else e.largestAmount
    subtotal := none
    tax := none
    shipping := none
    date := if e.dateRegex.isSome then e.dateRegex else e.mostRecentDate
    orderNumber := e.orderNumber
    invoiceNumber := e.invoiceNumber
    poNumber := none
    accountNumber := none
    cardLast4 := if sTruthy e.cardRegex then e.cardRegex else e.cardFallback
    paymentMethod := e.paymentMethod
    jobName := e.jobName
    lineItems := e.lineItems
    confidence := .low }

/-- `GenericParser.parse` (also the tail of `parseHtml`): assemble the
result, compute its confidence, and return it only when
`result.total && result.date`. -/
def parse (e : GenericExtraction) : Option ParsedReceipt :=
  let r0 := buildResult e
  let r := { r0 with confidence := calculateConfidence r0 }
  if qTruthy r.total && r.date.isSome then some r else none

end GenericParser

/-! ## Alpha Supply parser (`src/parsers/vendors/alpha-supply.js`) -/

/-- One step of a regex cascade with a parsed value: `none` when the
pattern did not match, `some v` when it matched and the parse of the
capture produced `v` (itself `none` when the parse failed). -/
abbrev CascadeStep (α : Type) := Option (Option α)

/-- `for (const pattern of patterns) { if (match) { result.x = parse(m);
if (result.x) break; } }` — each matching pattern overwrites the field,
a truthy value stops the cascade.  `truthy` is the JS truthiness of the
field. -/
def cascadeAux (truthy : Option α → Bool) (cur : Option α) :
    List (CascadeStep α) → Option α
  | [] => cur
  | none :: rest => cascadeAux truthy cur rest
  | some v :: rest => if truthy v then v else cascadeAux truthy v rest

def cascadeQ (l : List (CascadeStep ℚ)) : Option ℚ :=
  cascadeAux qTruthy none l

def cascadeDate (l : List (CascadeStep Int)) : Option Int :=
  cascadeAux Option.isSome none l

/-- Outcome of the Alpha Supply parser's regex phase, one field per
source extraction step. -/
structure AlphaExtraction where
  /-- The four `totalPatterns` in order, through `parseCurrency`. -/
  totalCascade : List (CascadeStep ℚ) := []
  subtotal : Option ℚ := none
  tax : Option ℚ := none
  /-- The three `datePatterns` in order, through `parseDate`. -/
  dateCascade : List (CascadeStep Int) := []
  invoiceNumber : Option String := none
  poNumber : Option String := none
  accountNumber : Option String := none
  /-- Payment-method regex: `(method, last4)` when matched. -/
  card : Option (String × String) := none
  lineItems : List LineItem := []
deriving DecidableEq, Repr

namespace AlphaSupplyParser

/-- Field assembly of `AlphaSupplyParser.parse`. -/
def buildResult (e : AlphaExtraction) : ParsedReceipt :=
  { total := cascadeQ e.totalCascade
    subtotal := e.subtotal
    tax := e.tax
    shipping := none
    date := cascadeDate e.dateCascade
    orderNumber := none
    invoiceNumber := e.invoiceNumber
    poNumber := e.poNumber
    accountNumber := e.accountNumber
    cardLast4 := e.card.map Prod.snd
    paymentMethod := e.card.map Prod.fst
    jobName := none
    lineItems := e.lineItems
    confidence := .medium }

/-- Vendor-specific confidence rule: `high` with total + date + a
reference number, `medium` with total + date, else `low`. -/
def confidence (r : ParsedReceipt) : Confidence :=
  if qTruthy r.total && r.date.isSome
      && (sTruthy r.invoiceNumber || sTruthy r.poNumber) then .high
  else if qTruthy r.total && r.date.isSome then .medium
  else .low

/-- `AlphaSupplyParser.parse`: assemble, set confidence, and return the
result when `result.total || result.lineItems.length > 0`, else
`null`. -/
def parse (e : AlphaExtraction) : Option ParsedReceipt :=
  let r0 := buildResult e
  let r := { r0 with confidence := confidence r0 }
  if qTruthy r.total || decide (0 < r.lineItems.length) then some r else none

end AlphaSupplyParser

/-! ## Parser router (`src/parsers/index.js`) over the vendor registry
(`src/parsers/vendors/index.js`) -/

/-- A detected Vendor Profile (`src/config/vendors.js` entry plus its
key, as produced by `detectVendor`).  The per-field extractor regexes
live behind the extraction modelling and are not repeated here. -/
structure Vendor where
  vendorId : String
  name : String
  displayName : String
  qboVendorName : String
  category : String
deriving DecidableEq, Repr

/-- Keys of the static vendor configuration `vendors` in
`src/config/vendors.js`, in declaration order. -/
def configVendorIds : List String :=
  ["home-depot", "lowes", "amazon", "ced", "ace-hardware", "alpha-supply", "read-lighting"]

/-- The parser modules the router dispatches to.  Their internals are
regex-driven and enter the model through extraction records, so the
router is stated over their input/output behaviour on decoded text. -/
structure ParserModules (Text : Type) where
  /-- `vendorParsers.generic.parse(text, sourceType, vendor)`; the
  `sourceType` tag does not influence any parser's behaviour and is
  dropped. -/
  genericParse : Text → Option Vendor → Option ParsedReceipt
  homeDepotParse : Text → Option ParsedReceipt
  lowesParse : Text → Option ParsedReceipt
  amazonParse : Text → Option ParsedReceipt
  cedParse : Text → Option ParsedReceipt
  alphaSupplyParse : Text → Option ParsedReceipt
  readLightingParse : Text → Option ParsedReceipt

/-- `vendorParsers[id]` from `src/parsers/vendors/index.js`: the module
registry keyed by vendor id, including the `generic` key (whose `parse`
is invoked without a vendor argument when reached through the
registry). -/
def vendorParsersLookup (M : ParserModules Text) (id : String) :
    Option (Text → Option ParsedReceipt) :=
  if id = "generic" then some (fun t => M.genericParse t none)
  else if id = "home-depot" then some M.homeDepotParse
  else if id = "lowes" then some M.lowesParse
  else if id = "amazon" then some M.amazonParse
  else if id = "ced" then some M.cedParse
  else if id = "alpha-supply" then some M.alphaSupplyParse
  else if id = "read-lighting" then some M.readLightingParse
  else none

namespace ParserRouter

/-- `ParserRouter.parseText`: try the vendor-specific parser when the
detected vendor has an entry in the registry and accept a non-null
result; otherwise fall through to the generic parser with the vendor
profile as extraction hints. -/
def parseText (M : ParserModules Text) (textContent : Text)
    (vendor : Option Vendor) : Option ParsedReceipt :=
  match vendor with
  | some v =>
    match vendorParsersLookup M v.vendorId with
    | some p =>
      match p textContent with
      | some result => some result
      | none => M.genericParse textContent (some v)
    | none => M.genericParse textContent (some v)
  | none => M.genericParse textContent none

end ParserRouter

/-! ## Receipt data model (`src/models/receipt.js`) -/

inductive SyncStatus where
  | pending
  | matched
  | synced
  | error
deriving DecidableEq, Repr

structure VendorInfo where
  id : Option String := none
  name : Option String := none
  displayName : Option String := none
  /-- Read by the uploader; `createReceipt` never sets it, so it is
  `none` on every receipt the pipeline builds. -/
  qboVendorName : Option String := none
  qboVendorId : Option Nat := none
deriving DecidableEq, Repr

structure TransactionInfo where
  date : Option Int := none
  total : Option ℚ := none
  subtotal : Option ℚ := none
  tax : Option ℚ := none
  shipping : Option ℚ := none
  discount : Option ℚ := none
deriving DecidableEq, Repr

structure PaymentInfo where
  method : Option String := none
  cardType : Option String := none
  cardLast4 : Option String := none
deriving DecidableEq, Repr

structure ReferenceInfo where
  orderNumber : Option String := none
  invoiceNumber : Option String := none
  poNumber : Option String := none
deriving DecidableEq, Repr

structure JobInfo where
  name : Option String := none
  qboCustomerId : Option Nat := none
  qboProjectId : Option Nat := none
deriving DecidableEq, Repr

structure QboSync where
  status : SyncStatus := .pending
  transactionId : Option Nat := none
  expenseId : Option Nat := none
  billId : Option Nat := none
  error : Option String := none
deriving DecidableEq, Repr

structure CategoryInfo where
  name : String := "Materials & Supplies"
  qboAccountId : Option Nat := none
  isBillable : Bool := true
  isTaxable : Bool := true
deriving DecidableEq, Repr

structure Attachment where
  filename : Option String := none
  data : Option String := none
deriving DecidableEq, Repr

structure ReceiptMetadata where
  processingNotes : List String := []
  confidence : Option Confidence := none
deriving DecidableEq, Repr

/-- The durable Receipt record built by `createReceipt`.  Source
provenance fields that no operation reads back (email subject, received
timestamp) are dropped along with the wall-clock metadata. -/
structure Receipt where
  id : String
  vendor : VendorInfo := {}
  transaction : TransactionInfo := {}
  payment : PaymentInfo := {}
  reference : ReferenceInfo := {}
  job : JobInfo := {}
  lineItems : List LineItem := []
  qboSync : QboSync := {}
  category : CategoryInfo := {}
  attachments : List Attachment := []
  metadata : ReceiptMetadata := {}
deriving DecidableEq, Repr

/-- The `data` argument of `createReceipt`. -/
structure ReceiptInput where
  vendorId : Option String := none
  vendorName : Option String := none
  vendorDisplayName : Option String := none
  qboVendorId : Option Nat := none
  date : Option Int := none
  total : Option ℚ := none
  subtotal : Option ℚ := none
  tax : Option ℚ := none
  shipping : Option ℚ := none
  discount : Option ℚ := none
  paymentMethod : Option String := none
  cardType : Option String := none
  cardLast4 : Option String := none
  orderNumber : Option String := none
  invoiceNumber : Option String := none
  poNumber : Option String := none
  jobName : Option String := none
  qboCustomerId : Option Nat := none
  lineItems : List LineItem := []
  categoryName : Option String := none
  isBillable : Bool := true
  isTaxable : Bool := true
  confidence : Option Confidence := none
deriving DecidableEq, Repr

/-- `createReceipt(data)`: every receipt starts with sync status
`pending`.  The generated id (`data.id || generateReceiptId()`) is a
fresh random/time-based string; the model takes it as the `freshId`
argument. -/
def createReceipt (freshId : String) (data : ReceiptInput) : Receipt :=
  { id := freshId
    vendor :=
      { id := data.vendorId
        name := data.vendorName
        displayName := data.vendorDisplayName
        qboVendorName := none
        qboVendorId := data.qboVendorId }
    transaction :=
      { date := data.date
        total := data.total
        subtotal := data.subtotal
        tax := data.tax
        shipping := data.shipping
        discount := data.discount }
    payment :=
      { method := data.paymentMethod
        cardType := data.cardType
        cardLast4 := data.cardLast4 }
    reference :=
      { orderNumber := data.orderNumber
        invoiceNumber := data.invoiceNumber
        poNumber := data.poNumber }
    job :=
      { name := data.jobName
        qboCustomerId := data.qboCustomerId
        qboProjectId := none }
    lineItems := data.lineItems
    qboSync :=
      { status := .pending
        transactionId := none
        expenseId := none
        billId := none
        error := none }
    category :=
      { name := (jsOrS data.categoryName (some "Materials & Supplies")).getD "Materials & Supplies"
        qboAccountId := none
        isBillable := data.isBillable
        isTaxable := data.isTaxable }
    attachments := []
    metadata := { processingNotes := [], confidence := data.confidence } }

/-- The `details` argument of `updateSyncStatus`; a `some` field is a
key present in the spread `...details`. -/
structure SyncDetails where
  transactionId : Option Nat := none
  expenseId : Option Nat := none
  error : Option String := none
deriving DecidableEq, Repr

/-- `updateSyncStatus(receipt, status, details)`: overwrite the status
with the requested one and merge the detail keys over `qboSync`.  The
source has no guard on the current status. -/
def updateSyncStatus (r : Receipt) (status : SyncStatus) (d : SyncDetails) : Receipt :=
  { r with qboSync :=
      { r.qboSync with
        status := status
        transactionId := d.transactionId.orElse fun _ => r.qboSync.transactionId
        expenseId := d.expenseId.orElse fun _ => r.qboSync.expenseId
        error := d.error.orElse fun _ => r.qboSync.error } }

/-- `addProcessingNote(receipt, note)`: append to the ordered note
log. -/
def addProcessingNote (r : Receipt) (note : String) : Receipt :=
  { r with metadata :=
      { r.metadata with processingNotes := r.metadata.processingNotes ++ [note] } }

/-! ## Transaction matcher (`src/services/quickbooks/matcher.js`) -/

/-- A ledger purchase transaction (QBO `Purchase`) as the matcher reads
it: `TxnDate` (day number of the normalized date string), `TotalAmt`,
the optional `Credit.CCDetail.CCNumber`, and the entity id. -/
structure Txn where
  txnDate : Int
  totalAmt : ℚ
  ccNumber : Option String := none
  id : Nat := 0
deriving DecidableEq, Repr

/-- Amount component of the candidate score:
`amountDiff = Math.abs(txn.TotalAmt - transaction.total)`, tiered at
`0`, `0.10`, `1.00`, `5.00`.  A receipt without a total makes every
comparison against `NaN` false, so the component is `0`. -/
def amountScore (txnAmt : ℚ) (total : Option ℚ) : Nat :=
  match total with
  | none => 0
  | some t =>
    let d := |txnAmt - t|
    if d = 0 then 100
    else if d < 1/10 then 80
    else if d < 1 then 50
    else if d < 5 then 20
    else 0

/-- Date component of the candidate score:
`txn.TxnDate === transaction.date` gives `30`, otherwise
`dayjs(txn.TxnDate).diff(dayjs(transaction.date), 'day') <= 1` — the
SIGNED day difference — gives `20`.  A receipt without a date compares
`NaN`, so the component is `0`. -/
def dateScore (txnDate : Int) (rcptDate : Option Int) : Nat :=
  match rcptDate with
  | none => 0
  | some d =>
    if txnDate = d then 30
    else if txnDate - d ≤ 1 then 20
    else 0

/-- The date component as the spec and claim word it: `+30` on the exact
date, `+20` when the dates are unequal but at most one day apart (in
absolute value), `0` otherwise.  Stated separately from `dateScore` so
the two can be compared. -/
def claimDateScore (txnDate rcptDate : Int) : Nat :=
  if txnDate = rcptDate then 30
  else if |txnDate - rcptDate| ≤ 1 then 20
  else 0

/-- JS `s.slice(-4)`: the last four characters (the whole string when
shorter). -/
def sliceLast4 (s : String) : String :=
  ⟨s.data.drop (s.data.length - 4)⟩

/-- Card component of the candidate score: `+50` when both sides carry a
truthy card number and the transaction card's last four characters equal
the receipt's `cardLast4`. -/
def cardScore (cardLast4 ccNumber : Option String) : Nat :=
  match cardLast4, ccNumber with
  | some c, some n =>
    if !c.isEmpty && !n.isEmpty && sliceLast4 n = c then 50 else 0
  | _, _ => 0

/-- Total score `findBestMatch` assigns a candidate against a
receipt. -/
def matchScore (receipt : Receipt) (txn : Txn) : Nat :=
  amountScore txn.totalAmt receipt.transaction.total
  + dateScore txn.txnDate receipt.transaction.date
  + cardScore receipt.payment.cardLast4 txn.ccNumber

/-- Loop body of `findBestMatch`: replace the running best only on a
strictly greater score (`score > bestScore`), so the first of equal
scorers is kept. -/
def bestStep (receipt : Receipt) (acc : Option Txn × Nat) (txn : Txn) : Option Txn × Nat :=
  if acc.2 < matchScore receipt txn then (some txn, matchScore receipt txn) else acc

/-- `TransactionMatcher.findBestMatch(transactions, receipt)`: scan the
candidates, keep the first strictly-best scorer, and return it only when
`bestScore >= 80`. -/
def findBestMatch (transactions : List Txn) (receipt : Receipt) : Option Txn :=
  let best := transactions.foldl (bestStep receipt) (none, 0)
  if 80 ≤ best.2 then best.1 else none

/-- A QuickBooks-side entity (Vendor, Customer, Account) as the matcher
caches it. -/
structure Entity where
  id : Nat
  name : String := ""
deriving DecidableEq, Repr

/-- The matcher singleton's three `Map` caches. -/
structure MatcherState where
  vendorCache : List (String × Entity) := []
  customerCache : List (String × Entity) := []
  accountCache : List (String × Entity) := []
deriving DecidableEq, Repr

/-- `TransactionMatcher.clearCaches`. -/
def clearCaches : MatcherState := {}

/-- Outcomes of the external QuickBooks API calls one sync touches.
Each field stands for one `qboClient.makeApiCall`; `.error` is the call
throwing. -/
structure SyncEnv where
  /-- `SELECT * FROM Vendor WHERE DisplayName LIKE name`. -/
  vendorQuery : String → Except String (List Entity)
  /-- `POST /vendor`. -/
  vendorCreate : String → Except String Entity
  /-- `SELECT * FROM Customer WHERE DisplayName LIKE name`. -/
  customerQuery : String → Except String (List Entity)
  /-- `POST /customer` (flagged `Job: true`). -/
  customerCreate : String → Except String Entity
  /-- `SELECT * FROM Account WHERE AccountType = Expense AND Name LIKE name`. -/
  accountQuery : String → Except String (List Entity)
  /-- `SELECT * FROM Account WHERE AccountType = Expense`. -/
  accountBroadQuery : Except String (List Entity)
  /-- `SELECT * FROM Purchase WHERE TxnDate` in the window; argument is
  the `(startDate, endDate)` window, `none` when the receipt has no
  transaction date. -/
  purchaseQuery : Option (Int × Int) → Except String (List Txn)
  /-- `SELECT * FROM Account WHERE AccountType = Credit Card`. -/
  ccAccountQuery : Except String (List Entity)
  /-- `POST /purchase` performed by `updateTransaction`. -/
  updateTxnResult : Except String Entity
  /-- `POST /purchase` performed by `createExpense`. -/
  createExpenseResult : Except String Entity

/-- `TransactionMatcher.findOrCreateVendor(vendorName)`: cache hit, else
query, else create; any thrown error is caught and surfaces as
`null`. -/
def findOrCreateVendor (env : SyncEnv) (st : MatcherState) (vendorName : String) :
    Option Entity × MatcherState :=
  match st.vendorCache.lookup vendorName with
  | some v => (some v, st)
  | none =>
    match env.vendorQuery vendorName with
    | .error _ => (none, st)
    | .ok vendors =>
      match vendors with
      | v :: _ => (some v, { st with vendorCache := (vendorName, v) :: st.vendorCache })
      | [] =>
        match env.vendorCreate vendorName with
        | .error _ => (none, st)
        | .ok v => (some v, { st with vendorCache := (vendorName, v) :: st.vendorCache })

/-- `TransactionMatcher.findOrCreateCustomer(jobName)`: `null` for a
falsy job name, else cache hit, query, create; errors are caught and
surface as `null`. -/
def findOrCreateCustomer (env : SyncEnv) (st : MatcherState) (jobName : Option String) :
    Option Entity × MatcherState :=
  match jobName with
  | none => (none, st)
  | some jn =>
    if jn.isEmpty then (none, st)
    else
      match st.customerCache.lookup jn with
      | some c => (some c, st)
      | none =>
        match env.customerQuery jn with
        | .error _ => (none, st)
        | .ok customers =>
          match customers with
          | c :: _ => (some c, { st with customerCache := (jn, c) :: st.customerCache })
          | [] =>
            match env.customerCreate jn with
            | .error _ => (none, st)
            | .ok c => (some c, { st with customerCache := (jn, c) :: st.customerCache })

/-- `TransactionMatcher.findCustomer` — deprecated alias of
`findOrCreateCustomer`. -/
def findCustomer (env : SyncEnv) (st : MatcherState) (jobName : Option String) :
    Option Entity × MatcherState :=
  findOrCreateCustomer env st jobName

/-- `account.Name.toLowerCase()` keyword test of `findAccount`'s broad
fallback. -/
def accountKeywordMatch (name : String) : Bool :=
  let n := name.toLower
  decide ("job supplies".data <:+: n.data)
  || decide ("job".data <:+: n.data)
  || decide ("material".data <:+: n.data)
  || decide ("supplies".data <:+: n.data)
  || decide ("cost of goods".data <:+: n.data)

/-- `TransactionMatcher.findAccount(categoryName)`: search by name
(default `Job Supplies`), then all expense accounts by keyword, then the
first expense account; errors are caught and surface as `null`. -/
def findAccount (env : SyncEnv) (st : MatcherState) (categoryName : String) :
    Option Entity × MatcherState :=
  let searchName := if categoryName.isEmpty then "Job Supplies" else categoryName
  match st.accountCache.lookup searchName with
  | some a => (some a, st)
  | none =>
    match env.accountQuery searchName with
    | .error _ => (none, st)
    | .ok accounts =>
      match accounts with
      | a :: _ => (some a, { st with accountCache := (searchName, a) :: st.accountCache })
      | [] =>
        match env.accountBroadQuery with
        | .error _ => (none, st)
        | .ok allAccounts =>
          match allAccounts.find? (fun a => accountKeywordMatch a.name) with
          | some a => (some a, { st with accountCache := (searchName, a) :: st.accountCache })
          | none =>
            match allAccounts with
            | a :: _ => (some a, { st with accountCache := (searchName, a) :: st.accountCache })
            | [] => (none, st)

/-- `TransactionMatcher.findCreditCardAccount`: first credit-card
account; errors are caught and surface as `null`. -/
def findCreditCardAccount (env : SyncEnv) : Option Entity :=
  match env.ccAccountQuery with
  | .error _ => none
  | .ok accounts => accounts.head?

/-- The ±3-day query window `findMatchingTransaction` derives from the
receipt's transaction date. -/
def matchWindow (r : Receipt) : Option (Int × Int) :=
  r.transaction.date.map fun d => (d - 3, d + 3)

/-- `TransactionMatcher.findMatchingTransaction(receipt)`: query the
window and pick the best match; the whole body is wrapped in
`try/catch` returning `null`, so a failed ledger query (or anything else
thrown inside) surfaces as `null`, never as an exception. -/
def findMatchingTransaction (env : SyncEnv) (receipt : Receipt) : Option Txn :=
  match env.purchaseQuery (matchWindow receipt) with
  | .error _ => none
  | .ok purchases => findBestMatch purchases receipt

/-! ## Sync orchestrator (`src/services/quickbooks/uploader.js`) -/

/-- `receipt.vendor.qboVendorName || receipt.vendor.displayName ||
receipt.vendor.name`; a fully-falsy chain is JS `undefined`, which the
query string renders as `"undefined"`. -/
def resolveVendorName (r : Receipt) : String :=
  (jsOrS r.vendor.qboVendorName (jsOrS r.vendor.displayName r.vendor.name)).getD "undefined"

/-- `QuickBooksUploader.uploadAttachment` (non-fatal, never throws):
with a first attachment carrying data and a synced entity id, record the
preparation note. -/
def uploadAttachment (r : Receipt) : Receipt :=
  match r.attachments.head? with
  | none => r
  | some a =>
    if a.data.isSome then
      match r.qboSync.expenseId.orElse fun _ => r.qboSync.billId with
      | none => r
      | some _ =>
        addProcessingNote r ("Attachment " ++ a.filename.getD "null" ++ " ready for upload")
    else r

/-- Result of one `syncReceipt` call: the receipt after its mutations,
the matcher caches after the call, and the re-thrown error message when
the sync failed. -/
structure SyncOutcome where
  receipt : Receipt
  st : MatcherState
  thrown : Option String
deriving Repr

/-- Resolution phase of `syncReceipt`: vendor, customer/project and
account find-or-create, each recording its ledger id on the receipt when
it produced an entity.  Returns the mutated receipt and the caches. -/
def resolveEntities (env : SyncEnv) (st : MatcherState) (receipt : Receipt) :
    Receipt × MatcherState :=
  let vres := findOrCreateVendor env st (resolveVendorName receipt)
  let r1 := match vres.1 with
    | some v => { receipt with vendor := { receipt.vendor with qboVendorId := some v.id } }
    | none => receipt
  let cres := if sTruthy receipt.job.name
    then findCustomer env vres.2 receipt.job.name
    else (none, vres.2)
  let r2 := match cres.1 with
    | some c => { r1 with job := { r1.job with qboCustomerId := some c.id } }
    | none => r1
  let ares := findAccount env cres.2 r2.category.name
  let r3 := match ares.1 with
    | some a => { r2 with category := { r2.category with qboAccountId := some a.id } }
    | none => r2
  (r3, ares.2)

/-- Match-and-write phase of `syncReceipt`: matched transaction update
(→ `matched`), otherwise expense creation (→ `synced`); a throwing write
sets `error` and re-throws.  `createExpense` first resolves the
credit-card account (`findCreditCardAccount`, itself catch-all) for its
payload; the payload construction is pure and cannot throw, so the write
outcome is `env.createExpenseResult`. -/
def writeReceipt (env : SyncEnv) (r3 : Receipt) (st3 : MatcherState) : SyncOutcome :=
  match findMatchingTransaction env r3 with
  | some txn =>
    match env.updateTxnResult with
    | .error e => { receipt := updateSyncStatus r3 .error { error := some e }, st := st3, thrown := some e }
    | .ok _ =>
      let r4 := addProcessingNote
        (updateSyncStatus r3 .matched { transactionId := some txn.id })
        ("Matched to existing transaction #" ++ Nat.repr txn.id)
      let r5 := if 0 < r4.attachments.length then uploadAttachment r4 else r4
      { receipt := r5, st := st3, thrown := none }
  | none =>
    let _ccAccount := findCreditCardAccount env
    match env.createExpenseResult with
    | .error e => { receipt := updateSyncStatus r3 .error { error := some e }, st := st3, thrown := some e }
    | .ok expense =>
      let r4 := addProcessingNote
        (updateSyncStatus r3 .synced { expenseId := some expense.id })
        ("Created new expense #" ++ Nat.repr expense.id)
      let r5 := if 0 < r4.attachments.length then uploadAttachment r4 else r4
      { receipt := r5, st := st3, thrown := none }

/-- `QuickBooksUploader.syncReceipt(receipt)`: resolve vendor, customer
and account (each failure swallowed into a `null` entity by the matcher),
then match and write. -/
def syncReceipt (env : SyncEnv) (st : MatcherState) (receipt : Receipt) : SyncOutcome :=
  let res := resolveEntities env st receipt
  writeReceipt env res.1 res.2

/-! ## Pipeline driver (`src/services/scheduler.js`) -/

/-- Inputs of one `Scheduler.runPipeline` cycle: the two authentication
outcomes, the receipts `processNewEmails` extracted, and the ledger
oracles for the sync loop. -/
structure PipelineEnv where
  gmailAuth : Bool
  qboAuth : Bool
  receipts : List Receipt
  sync : SyncEnv

/-- `Scheduler.runPipeline` acting on the matcher singleton's caches:
bail out when either service is unauthenticated, otherwise sync each
receipt in order, catching per-receipt errors.  Nothing in the pipeline
calls `clearCaches`; the caches flow from one cycle into the next. -/
def runPipeline (env : PipelineEnv) (st : MatcherState) :
    MatcherState × List SyncOutcome :=
  if !env.gmailAuth || !env.qboAuth then (st, [])
  else
    env.receipts.foldl
      (fun acc r =>
        let o := syncReceipt env.sync acc.1 r
        (o.st, acc.2 ++ [o]))
      (st, [])

/-! ## Concrete scenarios used in witnesses and counterexamples -/

/-- Receipt of scenario A/B of the spec: total `119.76`, a transaction
date (day number `100` stands for `2025-11-23`), card `1234`. -/
def scenarioReceipt : Receipt :=
  createReceipt "RLT-0001"
    { vendorDisplayName := some "The Home Depot"
      total := some (11976/100)
      date := some 100
      cardLast4 := some "1234" }

/-- Candidate with exact amount, exact date, and card ending `1234`. -/
def exactTxn : Txn :=
  { txnDate := 100, totalAmt := 11976/100, ccNumber := some "XXXXXXXXXXXX1234", id := 7 }

/-- Candidate two dollars off, dated far away, no card detail. -/
def twoDollarTxn : Txn :=
  { txnDate := 200, totalAmt := 11976/100 + 2, ccNumber := none, id := 8 }

/-- Generic-parser extraction outcome of a text such as
`"Total: $5.00\nWidget gadget $3.00"`: a truthy total and one line item,
but no date anywhere in the text. -/
def totalNoDateExtraction : GenericExtraction :=
  { totalRegex := some 5
    lineItems := [{ description := "Widget gadget", totalPrice := some 3 }] }

/-- Extraction outcome of a text with no amounts, dates or items at all. -/
def emptyGenericExtraction : GenericExtraction := {}

/-- Alpha Supply extraction outcome with a truthy invoice total and
date (used to exercise the vendor-parser null gate). -/
def alphaInvoiceExtraction : AlphaExtraction :=
  { totalCascade := [some (some (24150/100))]
    dateCascade := [some (some 90)]
    invoiceNumber := some "88217" }

/-- The `ace-hardware` profile of `src/config/vendors.js` — the one
configured vendor with no dedicated parser in the registry. -/
def aceHardwareVendor : Vendor :=
  { vendorId := "ace-hardware"
    name := "Ace Hardware"
    displayName := "Ace Hardware"
    qboVendorName := "Ace Hardware"
    category := "Materials & Supplies" }

/-- Degenerate parser modules over a unit text type. -/
def unitModules : ParserModules Unit :=
  { genericParse := fun _ _ => none
    homeDepotParse := fun _ => none
    lowesParse := fun _ => none
    amazonParse := fun _ => none
    cedParse := fun _ => none
    alphaSupplyParse := fun _ => none
    readLightingParse := fun _ => none }

/-- Environment in which the vendor lookup/create call throws and every
later call succeeds (empty match window, expense creation works). -/
def vendorFailEnv : SyncEnv :=
  { vendorQuery := fun _ => .error "Vendor lookup failed"
    vendorCreate := fun _ => .error "Vendor create failed"
    customerQuery := fun _ => .ok []
    customerCreate := fun _ => .ok { id := 31 }
    accountQuery := fun _ => .ok [{ id := 41, name := "Materials & Supplies" }]
    accountBroadQuery := .ok []
    purchaseQuery := fun _ => .ok []
    ccAccountQuery := .ok []
    updateTxnResult := .ok { id := 77 }
    createExpenseResult := .ok { id := 91 } }

/-- Environment in which the purchase-window query throws and expense
creation succeeds. -/
def queryFailEnv : SyncEnv :=
  { vendorFailEnv with
    vendorQuery := fun _ => .ok [{ id := 11, name := "The Home Depot" }]
    purchaseQuery := fun _ => .error "Query failed" }

/-- First-run environment for the cache-lifetime scenario: the ledger
holds vendor entity `1`. -/
def cacheRunEnv1 : SyncEnv :=
  { vendorFailEnv with
    vendorQuery := fun _ => .ok [{ id := 1, name := "The Home Depot" }] }

/-- Second-run environment: the ledger now holds vendor entity `2`
instead. -/
def cacheRunEnv2 : SyncEnv :=
  { vendorFailEnv with
    vendorQuery := fun _ => .ok [{ id := 2, name := "The Home Depot" }] }

/-- Receipt processed by both cache-lifetime runs. -/
def cacheRunReceipt : Receipt :=
  createReceipt "RLT-0002"
    { vendorDisplayName := some "The Home Depot"
      total := some 50
      date := some 100 }

def cachePipeline1 : PipelineEnv :=
  { gmailAuth := true, qboAuth := true, receipts := [cacheRunReceipt], sync := cacheRunEnv1 }

def cachePipeline2 : PipelineEnv :=
  { gmailAuth := true, qboAuth := true, receipts := [cacheRunReceipt], sync := cacheRunEnv2 }

/-- Matcher caches after the first pipeline run. -/
def cacheStateAfterRun1 : MatcherState := (runPipeline cachePipeline1 {}).1

/-! ## Shared lemmas -/

lemma addProcessingNote_qboSync (r : Receipt) (n : String) :
    (addProcessingNote r n).qboSync = r.qboSync := rfl

lemma uploadAttachment_qboSync (r : Receipt) :
    (uploadAttachment r).qboSync = r.qboSync := by
  unfold uploadAttachment
  cases r.attachments.head? with
  | none => rfl
  | some a =>
    simp only
    split
    · cases h : r.qboSync.expenseId.orElse fun _ => r.qboSync.billId <;> simp [h, addProcessingNote_qboSync]
    · rfl

lemma updateSyncStatus_status (r : Receipt) (s : SyncStatus) (d : SyncDetails) :
    (updateSyncStatus r s d).qboSync.status = s := rfl

lemma writeReceipt_status (env : SyncEnv) (r3 : Receipt) (st3 : MatcherState) :
    (writeReceipt env r3 st3).receipt.qboSync.status = .matched
    ∨ (writeReceipt env r3 st3).receipt.qboSync.status = .synced
    ∨ (writeReceipt env r3 st3).receipt.qboSync.status = .error := by
  rcases h : findMatchingTransaction env r3 with _ | txn
  · rcases hc : env.createExpenseResult with e | c
    · right; right; simp only [writeReceipt, h, hc]; rfl
    · right; left
      simp only [writeReceipt, h, hc]
      split
      · rw [uploadAttachment_qboSync, addProcessingNote_qboSync, updateSyncStatus_status]
      · rw [addProcessingNote_qboSync, updateSyncStatus_status]
  · rcases hu : env.updateTxnResult with e | u
    · right; right; simp only [writeReceipt, h, hu]; rfl
    · left
      simp only [writeReceipt, h, hu]
      split
      · rw [uploadAttachment_qboSync, addProcessingNote_qboSync, updateSyncStatus_status]
      · rw [addProcessingNote_qboSync, updateSyncStatus_status]

/-! ## Best-match selection lemmas -/

lemma foldl_bestStep_spec (r : Receipt) :
    ∀ (l : List Txn) (acc : Option Txn × Nat),
      (l.foldl (bestStep r) acc = acc ∧ ∀ u ∈ l, matchScore r u ≤ acc.2)
      ∨ (∃ l1 t l2, l = l1 ++ t :: l2
          ∧ l.foldl (bestStep r) acc = (some t, matchScore r t)
          ∧ acc.2 < matchScore r t
          ∧ (∀ u ∈ l1, matchScore r u < matchScore r t)
          ∧ (∀ u ∈ l2, matchScore r u ≤ matchScore r t)) := by
  intro l
  induction l with
  | nil => intro acc; left; exact ⟨rfl, by simp⟩
  | cons x xs ih =>
    intro acc
    rw [List.foldl_cons]
    by_cases hx : acc.2 < matchScore r x
    · have hstep : bestStep r acc x = (some x, matchScore r x) := by
        simp [bestStep, hx]
      rw [hstep]
      rcases ih (some x, matchScore r x) with ⟨heq, hall⟩ | ⟨l1, t, l2, hl, hres, hlt, h1, h2⟩
      · right
        exact ⟨[], x, xs, by simp, by rw [heq], hx, by simp, hall⟩
      · right
        refine ⟨x :: l1, t, l2, by rw [hl]; rfl, hres, lt_trans hx hlt, ?_, h2⟩
        intro u hu
        rcases List.mem_cons.mp hu with rfl | hu'
        · exact hlt
        · exact h1 u hu'
    · have hstep : bestStep r acc x = acc := by simp [bestStep, hx]
      rw [hstep]
      push_neg at hx
      rcases ih acc with ⟨heq, hall⟩ | ⟨l1, t, l2, hl, hres, hlt, h1, h2⟩
      · left
        refine ⟨heq, ?_⟩
        intro u hu
        rcases List.mem_cons.mp hu with rfl | hu'
        · exact hx
        · exact hall u hu'
      · right
        refine ⟨x :: l1, t, l2, by rw [hl]; rfl, hres, hlt, ?_, h2⟩
        intro u hu
        rcases List.mem_cons.mp hu with rfl | hu'
        · exact lt_of_le_of_lt hx hlt
        · exact h1 u hu'

lemma findBestMatch_none_iff (l : List Txn) (r : Receipt) :
    findBestMatch l r = none ↔ ∀ u ∈ l, matchScore r u < 80 := by
  unfold findBestMatch
  rcases foldl_bestStep_spec r l (none, 0) with ⟨heq, hall⟩ | ⟨l1, t, l2, hl, hres, _hlt, h1, h2⟩
  · rw [heq]
    simp only
    rw [if_neg (by omega)]
    simp only [true_iff]
    intro u hu
    have := hall u hu
    omega
  · rw [hres]
    simp only
    by_cases h80 : 80 ≤ matchScore r t
    · rw [if_pos h80]
      simp only [reduceCtorEq, false_iff, not_forall]
      refine ⟨t, by rw [hl]; simp, by omega⟩
    · rw [if_neg h80]
      simp only [true_iff]
      intro u hu
      rw [hl] at hu
      rcases List.mem_append.mp hu with hu1 | hu2
      · have := h1 u hu1; omega
      · rcases List.mem_cons.mp hu2 with rfl | hu3
        · omega
        · have := h2 u hu3; omega

lemma findBestMatch_some_spec (l : List Txn) (r : Receipt) (t : Txn) :
    findBestMatch l r = some t →
      t ∈ l ∧ 80 ≤ matchScore r t
      ∧ (∀ u ∈ l, matchScore r u ≤ matchScore r t)
      ∧ ∃ l1 l2, l = l1 ++ t :: l2 ∧ ∀ u ∈ l1, matchScore r u < matchScore r t := by
  unfold findBestMatch
  rcases foldl_bestStep_spec r l (none, 0) with ⟨heq, _hall⟩ | ⟨l1, t', l2, hl, hres, _hlt, h1, h2⟩
  · rw [heq]
    simp only
    rw [if_neg (by omega)]
    intro h
    exact absurd h (by simp)
  · rw [hres]
    simp only
    by_cases h80 : 80 ≤ matchScore r t'
    · rw [if_pos h80]
      intro h
      obtain rfl : t' = t := by injection h
      refine ⟨by rw [hl]; simp, h80, ?_, l1, l2, hl, h1⟩
      intro u hu
      rw [hl] at hu
      rcases List.mem_append.mp hu with hu1 | hu2
      · exact le_of_lt (h1 u hu1)
      · rcases List.mem_cons.mp hu2 with rfl | hu3
        · exact le_refl _
        · exact h2 u hu3
    · rw [if_neg h80]
      intro h
      exact absurd h (by simp)

lemma matchScore_le_max (r : Receipt) (t : Txn) : matchScore r t ≤ 180 := by
  have h1 : amountScore t.totalAmt r.transaction.total ≤ 100 := by
    unfold amountScore
    cases r.transaction.total with
    | none => exact Nat.zero_le _
    | some q => simp only; split_ifs <;> omega
  have h2 : dateScore t.txnDate r.transaction.date ≤ 30 := by
    unfold dateScore
    cases r.transaction.date with
    | none => exact Nat.zero_le _
    | some d => simp only; split_ifs <;> omega
  have h3 : cardScore r.payment.cardLast4 t.ccNumber ≤ 50 := by
    unfold cardScore
    rcases r.payment.cardLast4 with _ | c <;> rcases t.ccNumber with _ | n <;> simp only
    · omega
    · omega
    · omega
    · split_ifs <;> omega
  unfold matchScore
  omega

/-! ## C1 — best-match selection and the 80-point threshold -/

/-- C1: `findBestMatch` returns the highest-scoring candidate, first
of equal scorers, exactly when its score reaches 80, and `none`
otherwise; a candidate with exact amount, exact date and matching card
last-4 scores 180 and is accepted from any candidate list containing
it, while a candidate whose only points are the `< 5.00` amount tier of
a two-dollar delta scores 20 and is rejected. -/
theorem findBestMatch_threshold_spec :
    ∀ (l : List Txn) (r : Receipt),
      (findBestMatch l r = none ↔ ∀ u ∈ l, matchScore r u < 80)
      ∧ (∀ t, findBestMatch l r = some t →
          t ∈ l ∧ 80 ≤ matchScore r t
          ∧ (∀ u ∈ l, matchScore r u ≤ matchScore r t)
          ∧ ∃ l1 l2, l = l1 ++ t :: l2 ∧ ∀ u ∈ l1, matchScore r u < matchScore r t)
      ∧ (∀ txn : Txn, r.transaction.total = some txn.totalAmt →
          r.transaction.date = some txn.txnDate →
          cardScore r.payment.cardLast4 txn.ccNumber = 50 →
          matchScore r txn = 180
          ∧ ∀ l2 : List Txn, txn ∈ l2 →
              ∃ u, findBestMatch l2 r = some u ∧ matchScore r u = 180)
      ∧ (∀ (txn : Txn) (tot : ℚ), r.transaction.total = some tot →
          |txn.totalAmt - tot| = 2 →
          dateScore txn.txnDate r.transaction.date = 0 →
          cardScore r.payment.cardLast4 txn.ccNumber = 0 →
          matchScore r txn = 20 ∧ findBestMatch [txn] r = none) := by
  intro l r
  refine ⟨findBestMatch_none_iff l r, fun t => findBestMatch_some_spec l r t, ?_, ?_⟩
  · intro txn htot hdate hcard
    have hms : matchScore r txn = 180 := by
      unfold matchScore amountScore dateScore
      rw [hcard, htot, hdate]
      simp [sub_self]
    refine ⟨hms, ?_⟩
    intro l2 hmem
    cases h : findBestMatch l2 r with
    | none =>
      have := (findBestMatch_none_iff l2 r).mp h txn hmem
      omega
    | some u =>
      have hspec := findBestMatch_some_spec l2 r u h
      have hle : matchScore r txn ≤ matchScore r u := hspec.2.2.1 txn hmem
      have hmax := matchScore_le_max r u
      exact ⟨u, rfl, by omega⟩
  · intro txn tot htot habs hdate hcard
    have hms : matchScore r txn = 20 := by
      unfold matchScore
      rw [hcard, hdate]
      unfold amountScore
      rw [htot]
      simp only
      rw [habs]
      norm_num
    refine ⟨hms, ?_⟩
    rw [findBestMatch_none_iff]
    intro u hu
    rcases List.mem_singleton.mp hu with rfl
    omega

/-- C1 witness: the scenario receipt against the exact and two-dollar
candidates. -/
theorem findBestMatch_threshold_spec_witness :
    matchScore scenarioReceipt exactTxn = 180
    ∧ findBestMatch [exactTxn] scenarioReceipt = some exactTxn
    ∧ matchScore scenarioReceipt twoDollarTxn = 20
    ∧ findBestMatch [twoDollarTxn] scenarioReceipt = none := by
  have h180 := ((findBestMatch_threshold_spec [exactTxn] scenarioReceipt).2.2.1
    exactTxn rfl rfl (by decide))
  have h20 := ((findBestMatch_threshold_spec [twoDollarTxn] scenarioReceipt).2.2.2
    twoDollarTxn (11976/100) rfl
    (by rw [show (twoDollarTxn.totalAmt : ℚ) - 11976/100 = 2 by
          unfold twoDollarTxn; simp only; ring]
        exact abs_of_pos (by norm_num))
    (by decide) (by decide))
  obtain ⟨u, hu, hscore⟩ := h180.2 [exactTxn] (by simp)
  obtain rfl : u = exactTxn :=
    List.mem_singleton.mp (findBestMatch_some_spec [exactTxn] scenarioReceipt u hu).1
  exact ⟨h180.1, hu, h20.1, h20.2⟩

/-! ## C2 — date component of the candidate score -/

/-- C2: divergence exhibit for the date component.  The claim and spec
award `+20` only when the dates are unequal but at most one day apart;
the source computes the SIGNED `dayjs` difference, so a candidate dated
three days before the receipt (`100` vs `103`) still collects `+20`,
while one dated two days after (`105` vs `103`) collects `0` as the
claim says. -/
theorem dateScore_signed_diff_divergence :
    dateScore 100 (some 103) = 20
    ∧ claimDateScore 100 103 = 0
    ∧ dateScore 103 (some 103) = 30
    ∧ claimDateScore 103 103 = 30
    ∧ dateScore 105 (some 103) = 0
    ∧ claimDateScore 105 103 = 0 := by
  decide

/-! ## C3 — the parsers' null gates -/

/-- C3 counterexample: the generic parser drops a result that carries a
truthy total and a line item but no date, so "returns null exactly when
it extracted neither a total nor any line items" fails on the generic
parser. -/
theorem genericParser_drops_total_without_date :
    GenericParser.parse totalNoDateExtraction = none
    ∧ qTruthy (GenericParser.buildResult totalNoDateExtraction).total = true
    ∧ (GenericParser.buildResult totalNoDateExtraction).lineItems ≠ [] := by
  refine ⟨rfl, rfl, ?_⟩
  decide

/-- C3 amended: a vendor-specific parser (Alpha Supply shown, the other
vendor parsers share the gate verbatim) returns null exactly when it has
neither a truthy total nor any line item, and otherwise returns its
result with the vendor confidence rule applied; the generic parser
instead returns null exactly when it lacks a truthy total or a date, and
otherwise returns its result with the point-based confidence applied. -/
theorem parser_null_gates :
    (∀ e : AlphaExtraction,
      (AlphaSupplyParser.parse e = none ↔
        qTruthy (AlphaSupplyParser.buildResult e).total = false
        ∧ (AlphaSupplyParser.buildResult e).lineItems = [])
      ∧ ∀ r, AlphaSupplyParser.parse e = some r →
          r = { AlphaSupplyParser.buildResult e with
                confidence := AlphaSupplyParser.confidence (AlphaSupplyParser.buildResult e) })
    ∧ (∀ e : GenericExtraction,
      (GenericParser.parse e = none ↔
        ¬(qTruthy (GenericParser.buildResult e).total = true
          ∧ (GenericParser.buildResult e).date.isSome = true))
      ∧ ∀ r, GenericParser.parse e = some r →
          r = { GenericParser.buildResult e with
                confidence := calculateConfidence (GenericParser.buildResult e) }) := by
  constructor
  · intro e
    constructor
    · simp only [AlphaSupplyParser.parse]
      by_cases h : (qTruthy (AlphaSupplyParser.buildResult e).total
          || decide (0 < (AlphaSupplyParser.buildResult e).lineItems.length)) = true
      · simp only [h, if_true]
        simp only [Bool.or_eq_true, decide_eq_true_eq] at h
        constructor
        · intro hc; exact absurd hc (by simp)
        · rintro ⟨h1, h2⟩
          rcases h with h | h
          · rw [h1] at h; exact absurd h (by simp)
          · rw [h2] at h; simp at h
      · simp only [h, if_false]
        simp only [Bool.or_eq_true, decide_eq_true_eq, not_or, Nat.not_lt,
          Nat.le_zero, Bool.not_eq_true] at h
        simp [h.1, List.length_eq_zero.mp h.2]
    · intro r hr
      simp only [AlphaSupplyParser.parse] at hr
      split at hr
      · exact (Option.some.injEq _ _ ▸ hr).symm
      · exact absurd hr (by simp)
  · intro e
    constructor
    · simp only [GenericParser.parse]
      by_cases h : (qTruthy (GenericParser.buildResult e).total
          && (GenericParser.buildResult e).date.isSome) = true
      · simp only [h, if_true]
        simp only [Bool.and_eq_true] at h
        simp [h.1, h.2]
      · simp only [h, if_false]
        simp only [Bool.and_eq_true] at h
        simp [h]
    · intro r hr
      simp only [GenericParser.parse] at hr
      split at hr
      · exact (Option.some.injEq _ _ ▸ hr).symm
      · exact absurd hr (by simp)

/-- C3 witness: an extraction with nothing in it is rejected by the
generic parser's gate. -/
theorem parser_null_gates_witness :
    GenericParser.parse emptyGenericExtraction = none :=
  ((parser_null_gates.2 emptyGenericExtraction).1).mpr (by decide)

/-! ## C4 — sync-status lifecycle -/

/-- C4 counterexample: `updateSyncStatus` has no forward-only guard, so
a status update — one of the operations the claim quantifies over —
moves a receipt from the terminal `synced` back to `pending`. -/
theorem status_reverts_under_updateSyncStatus :
    (updateSyncStatus (createReceipt "RLT-0004" {}) .synced {}).qboSync.status = .synced
    ∧ (updateSyncStatus
        (updateSyncStatus (createReceipt "RLT-0004" {}) .synced {})
        .pending {}).qboSync.status = .pending := by
  exact ⟨rfl, rfl⟩

/-- C4 amended: `updateSyncStatus` applies exactly the requested status
with no guard, so arbitrary status updates can revert or cross terminal
states; within the operations the system itself performs, a receipt is
created `pending`, notes never touch the status, and `syncReceipt`
always leaves `matched`, `synced` or `error` — never `pending`. -/
theorem sync_status_discipline :
    (∀ (r : Receipt) (s : SyncStatus) (d : SyncDetails),
      (updateSyncStatus r s d).qboSync.status = s)
    ∧ (∀ (freshId : String) (data : ReceiptInput),
      (createReceipt freshId data).qboSync.status = .pending)
    ∧ (∀ (r : Receipt) (n : String),
      (addProcessingNote r n).qboSync.status = r.qboSync.status)
    ∧ (∀ (env : SyncEnv) (st : MatcherState) (r : Receipt),
      (syncReceipt env st r).receipt.qboSync.status = .matched
      ∨ (syncReceipt env st r).receipt.qboSync.status = .synced
      ∨ (syncReceipt env st r).receipt.qboSync.status = .error) := by
  refine ⟨fun r s d => rfl, fun i d => rfl, fun r n => rfl, fun env st r => ?_⟩
  exact writeReceipt_status env (resolveEntities env st r).1 (resolveEntities env st r).2

/-! ## C7 — parser-router fallthrough -/

/-- C7: for any configured vendor whose id has no parser in the
registry, the router's text path is exactly the generic parser invoked
with that vendor's profile as hints. -/
theorem parseText_fallthrough :
    ∀ {Text : Type} (M : ParserModules Text) (t : Text) (v : Vendor),
      v.vendorId ∈ configVendorIds →
      vendorParsersLookup M v.vendorId = none →
      ParserRouter.parseText M t (some v) = M.genericParse t (some v) := by
  intro Text M t v _hmem hnone
  simp only [ParserRouter.parseText, hnone]

/-- C7 witness: the `ace-hardware` profile has no dedicated parser, and
the router falls through to generic with its profile. -/
theorem parseText_fallthrough_witness :
    ParserRouter.parseText unitModules () (some aceHardwareVendor)
      = unitModules.genericParse () (some aceHardwareVendor) :=
  parseText_fallthrough unitModules () aceHardwareVendor (by decide) rfl

/-! ## Sync-phase lemmas -/

lemma resolveEntities_fields (env : SyncEnv) (st : MatcherState) (r : Receipt) :
    (resolveEntities env st r).1.transaction = r.transaction
    ∧ (resolveEntities env st r).1.payment = r.payment
    ∧ (resolveEntities env st r).1.qboSync = r.qboSync
    ∧ (resolveEntities env st r).1.attachments = r.attachments := by
  unfold resolveEntities
  refine ⟨?_, ?_, ?_, ?_⟩ <;>
  · simp only
    repeat' split
    all_goals rfl

lemma matchWindow_resolveEntities (env : SyncEnv) (st : MatcherState) (r : Receipt) :
    matchWindow (resolveEntities env st r).1 = matchWindow r := by
  unfold matchWindow
  rw [(resolveEntities_fields env st r).1]

lemma writeReceipt_noMatch_ok (env : SyncEnv) (r3 : Receipt) (st3 : MatcherState)
    (c : Entity) (hm : findMatchingTransaction env r3 = none)
    (hc : env.createExpenseResult = .ok c) :
    (writeReceipt env r3 st3).thrown = none
    ∧ (writeReceipt env r3 st3).receipt.qboSync.status = .synced
    ∧ (writeReceipt env r3 st3).receipt.qboSync.expenseId = some c.id := by
  refine ⟨?_, ?_, ?_⟩
  · simp only [writeReceipt, hm, hc]
  · simp only [writeReceipt, hm, hc]
    split
    · rw [uploadAttachment_qboSync, addProcessingNote_qboSync, updateSyncStatus_status]
    · rw [addProcessingNote_qboSync, updateSyncStatus_status]
  · simp only [writeReceipt, hm, hc]
    split
    · rw [uploadAttachment_qboSync, addProcessingNote_qboSync]
      rfl
    · rw [addProcessingNote_qboSync]
      rfl

lemma writeReceipt_thrown_spec (env : SyncEnv) (r3 : Receipt) (st3 : MatcherState)
    (e : String) :
    (writeReceipt env r3 st3).thrown = some e →
    (env.updateTxnResult = .error e ∨ env.createExpenseResult = .error e)
    ∧ (writeReceipt env r3 st3).receipt.qboSync.status = .error := by
  rcases h : findMatchingTransaction env r3 with _ | txn
  · rcases hc : env.createExpenseResult with e' | c
    · simp only [writeReceipt, h, hc]
      intro ht
      obtain rfl : e' = e := by injection ht
      exact ⟨Or.inr rfl, rfl⟩
    · simp only [writeReceipt, h, hc]
      intro ht
      exact absurd ht (by simp)
  · rcases hu : env.updateTxnResult with e' | u
    · simp only [writeReceipt, h, hu]
      intro ht
      obtain rfl : e' = e := by injection ht
      exact ⟨Or.inl rfl, rfl⟩
    · simp only [writeReceipt, h, hu]
      intro ht
      exact absurd ht (by simp)

lemma writeReceipt_ok_writes (env : SyncEnv) (r3 : Receipt) (st3 : MatcherState)
    (u c : Entity) (hu : env.updateTxnResult = .ok u)
    (hc : env.createExpenseResult = .ok c) :
    (writeReceipt env r3 st3).thrown = none
    ∧ ((writeReceipt env r3 st3).receipt.qboSync.status = .matched
       ∨ (writeReceipt env r3 st3).receipt.qboSync.status = .synced) := by
  rcases h : findMatchingTransaction env r3 with _ | txn
  · constructor
    · simp only [writeReceipt, h, hc]
    · right
      simp only [writeReceipt, h, hc]
      split
      · rw [uploadAttachment_qboSync, addProcessingNote_qboSync, updateSyncStatus_status]
      · rw [addProcessingNote_qboSync, updateSyncStatus_status]
  · constructor
    · simp only [writeReceipt, h, hu]
    · left
      simp only [writeReceipt, h, hu]
      split
      · rw [uploadAttachment_qboSync, addProcessingNote_qboSync, updateSyncStatus_status]
      · rw [addProcessingNote_qboSync, updateSyncStatus_status]

/-! ## C5 — resolution failures and the error status -/

/-- C5 counterexample: the vendor find-or-create call throws, yet the
sync neither re-throws nor marks the receipt `error` — the matcher
swallows the failure, the vendor id stays unset, and the receipt ends
`synced`. -/
theorem vendor_resolve_failure_not_propagated :
    (∃ e, vendorFailEnv.vendorQuery (resolveVendorName scenarioReceipt) = .error e)
    ∧ (syncReceipt vendorFailEnv {} scenarioReceipt).thrown = none
    ∧ (syncReceipt vendorFailEnv {} scenarioReceipt).receipt.qboSync.status = .synced
    ∧ (syncReceipt vendorFailEnv {} scenarioReceipt).receipt.vendor.qboVendorId = none :=
  ⟨⟨"Vendor lookup failed", rfl⟩, rfl, rfl, rfl⟩

/-- C5 amended: a failed ledger find-or-create is caught inside the
matcher and surfaces as a `null` entity, not an exception; `syncReceipt`
re-throws (and sets `error`) only for failures of the ledger writes —
when both writes succeed, a sync with any resolution outcome finishes
`matched` or `synced` with nothing thrown. -/
theorem resolve_failures_swallowed :
    (∀ (env : SyncEnv) (st : MatcherState) (name e : String),
      st.vendorCache.lookup name = none →
      env.vendorQuery name = .error e →
      findOrCreateVendor env st name = (none, st))
    ∧ (∀ (env : SyncEnv) (st : MatcherState) (r : Receipt) (e : String),
      (syncReceipt env st r).thrown = some e →
      (env.updateTxnResult = .error e ∨ env.createExpenseResult = .error e)
      ∧ (syncReceipt env st r).receipt.qboSync.status = .error)
    ∧ (∀ (env : SyncEnv) (st : MatcherState) (r : Receipt) (u c : Entity),
      env.updateTxnResult = .ok u →
      env.createExpenseResult = .ok c →
      (syncReceipt env st r).thrown = none
      ∧ ((syncReceipt env st r).receipt.qboSync.status = .matched
         ∨ (syncReceipt env st r).receipt.qboSync.status = .synced)) := by
  refine ⟨?_, ?_, ?_⟩
  · intro env st name e hmiss herr
    unfold findOrCreateVendor
    rw [hmiss, herr]
  · intro env st r e ht
    exact writeReceipt_thrown_spec env (resolveEntities env st r).1 (resolveEntities env st r).2 e ht
  · intro env st r u c hu hc
    exact writeReceipt_ok_writes env (resolveEntities env st r).1 (resolveEntities env st r).2 u c hu hc

/-- C5 witness: the failing vendor query of the concrete environment is
swallowed and the sync completes without throwing. -/
theorem resolve_failures_swallowed_witness :
    findOrCreateVendor vendorFailEnv {} "The Home Depot" = (none, {})
    ∧ (syncReceipt vendorFailEnv {} scenarioReceipt).thrown = none := by
  have h1 := resolve_failures_swallowed.1 vendorFailEnv {} "The Home Depot"
    "Vendor lookup failed" rfl rfl
  have h3 := resolve_failures_swallowed.2.2 vendorFailEnv {} scenarioReceipt
    { id := 77 } { id := 91 } rfl rfl
  exact ⟨h1, h3.1⟩

/-! ## C10 — matcher exceptions are swallowed into "create new" -/

/-- C10: a throwing ledger query makes `findMatchingTransaction` return
`null` (the body's catch-all), and the orchestrator then takes the
create path: with a working expense write the receipt ends `synced`,
carrying the new expense id — the query failure never surfaces as an
`error` status. -/
theorem findMatchingTransaction_never_throws :
    (∀ (env : SyncEnv) (r : Receipt) (e : String),
      env.purchaseQuery (matchWindow r) = .error e →
      findMatchingTransaction env r = none)
    ∧ (∀ (env : SyncEnv) (st : MatcherState) (r : Receipt) (e : String) (c : Entity),
      env.purchaseQuery (matchWindow r) = .error e →
      env.createExpenseResult = .ok c →
      (syncReceipt env st r).thrown = none
      ∧ (syncReceipt env st r).receipt.qboSync.status = .synced
      ∧ (syncReceipt env st r).receipt.qboSync.expenseId = some c.id) := by
  have hfm : ∀ (env : SyncEnv) (r : Receipt) (e : String),
      env.purchaseQuery (matchWindow r) = .error e →
      findMatchingTransaction env r = none := by
    intro env r e he
    unfold findMatchingTransaction
    rw [he]
  refine ⟨hfm, ?_⟩
  intro env st r e c he hc
  have hm : findMatchingTransaction env (resolveEntities env st r).1 = none := by
    apply hfm env _ e
    rw [matchWindow_resolveEntities]
    exact he
  exact writeReceipt_noMatch_ok env (resolveEntities env st r).1 (resolveEntities env st r).2 c hm hc

/-- C10 witness: the concrete environment whose purchase query throws
still leads to a `synced` receipt. -/
theorem findMatchingTransaction_never_throws_witness :
    (syncReceipt queryFailEnv {} scenarioReceipt).thrown = none
    ∧ (syncReceipt queryFailEnv {} scenarioReceipt).receipt.qboSync.status = .synced := by
  have h := findMatchingTransaction_never_throws.2 queryFailEnv {} scenarioReceipt
    "Query failed" { id := 91 } rfl rfl
  exact ⟨h.1, h.2.1⟩

/-! ## Cache-lifetime lemmas -/

/-- One cache lookup survives inserting a fresh key. -/
lemma lookup_cons_of_some {l : List (String × Entity)} {k n : String} {v : Entity}
    (e : Entity) (h : l.lookup k = some v) (hmiss : l.lookup n = none) :
    ((n, e) :: l).lookup k = some v := by
  by_cases hk : k = n
  · subst hk
    rw [h] at hmiss
    cases hmiss
  · have hb : (k == n) = false := beq_eq_false_iff_ne.mpr hk
    simp [List.lookup, hb, h]

/-- Every lookup of `st1` still answers the same in `st2`. -/
def cacheLe (st1 st2 : MatcherState) : Prop :=
  (∀ k v, st1.vendorCache.lookup k = some v → st2.vendorCache.lookup k = some v)
  ∧ (∀ k v, st1.customerCache.lookup k = some v → st2.customerCache.lookup k = some v)
  ∧ (∀ k v, st1.accountCache.lookup k = some v → st2.accountCache.lookup k = some v)

lemma cacheLe_refl (st : MatcherState) : cacheLe st st :=
  ⟨fun _ _ h => h, fun _ _ h => h, fun _ _ h => h⟩

lemma cacheLe_trans {s1 s2 s3 : MatcherState} (h12 : cacheLe s1 s2) (h23 : cacheLe s2 s3) :
    cacheLe s1 s3 :=
  ⟨fun k v h => h23.1 k v (h12.1 k v h),
   fun k v h => h23.2.1 k v (h12.2.1 k v h),
   fun k v h => h23.2.2 k v (h12.2.2 k v h)⟩

lemma findOrCreateVendor_cacheLe (env : SyncEnv) (st : MatcherState) (n : String) :
    cacheLe st (findOrCreateVendor env st n).2 := by
  unfold findOrCreateVendor
  cases hl : st.vendorCache.lookup n with
  | some v => exact cacheLe_refl st
  | none =>
    cases hq : env.vendorQuery n with
    | error e => exact cacheLe_refl st
    | ok vendors =>
      cases vendors with
      | cons v tl =>
        exact ⟨fun k v' h => lookup_cons_of_some v h hl, fun _ _ h => h, fun _ _ h => h⟩
      | nil =>
        cases hc : env.vendorCreate n with
        | error e => exact cacheLe_refl st
        | ok v =>
          exact ⟨fun k v' h => lookup_cons_of_some v h hl, fun _ _ h => h, fun _ _ h => h⟩

lemma findOrCreateCustomer_cacheLe (env : SyncEnv) (st : MatcherState) (jn : Option String) :
    cacheLe st (findOrCreateCustomer env st jn).2 := by
  unfold findOrCreateCustomer
  cases jn with
  | none => exact cacheLe_refl st
  | some n =>
    by_cases hne : n.isEmpty
    · simp only [hne, if_true]
      exact cacheLe_refl st
    · simp only [hne, if_false]
      cases hl : st.customerCache.lookup n with
      | some c => exact cacheLe_refl st
      | none =>
        cases hq : env.customerQuery n with
        | error e => exact cacheLe_refl st
        | ok customers =>
          cases customers with
          | cons c tl =>
            exact ⟨fun _ _ h => h, fun k v' h => lookup_cons_of_some c h hl, fun _ _ h => h⟩
          | nil =>
            cases hc : env.customerCreate n with
            | error e => exact cacheLe_refl st
            | ok c =>
              exact ⟨fun _ _ h => h, fun k v' h => lookup_cons_of_some c h hl, fun _ _ h => h⟩

lemma accountCache_cons_cacheLe (st : MatcherState) {sn : String} (a : Entity)
    (hl : st.accountCache.lookup sn = none) :
    cacheLe st { st with accountCache := (sn, a) :: st.accountCache } :=
  ⟨fun _ _ h => h, fun _ _ h => h, fun _ _ h => lookup_cons_of_some a h hl⟩

lemma findAccount_cacheLe (env : SyncEnv) (st : MatcherState) (cn : String) :
    cacheLe st (findAccount env st cn).2 := by
  cases hl : st.accountCache.lookup (if cn.isEmpty then "Job Supplies" else cn) with
  | some a =>
    have he : (findAccount env st cn).2 = st := by
      unfold findAccount
      simp only [hl]
    rw [he]
    exact cacheLe_refl st
  | none =>
    cases hq : env.accountQuery (if cn.isEmpty then "Job Supplies" else cn) with
    | error e =>
      have he : (findAccount env st cn).2 = st := by
        unfold findAccount
        simp only [hl, hq]
      rw [he]
      exact cacheLe_refl st
    | ok accounts =>
      cases accounts with
      | cons a tl =>
        have he : (findAccount env st cn).2 =
            { st with accountCache :=
                ((if cn.isEmpty then "Job Supplies" else cn), a) :: st.accountCache } := by
          unfold findAccount
          simp only [hl, hq]
        rw [he]
        exact accountCache_cons_cacheLe st a hl
      | nil =>
        cases hb : env.accountBroadQuery with
        | error e =>
          have he : (findAccount env st cn).2 = st := by
            unfold findAccount
            simp only [hl, hq, hb]
          rw [he]
          exact cacheLe_refl st
        | ok allAccounts =>
          cases hf : allAccounts.find? (fun a => accountKeywordMatch a.name) with
          | some a =>
            have he : (findAccount env st cn).2 =
                { st with accountCache :=
                    ((if cn.isEmpty then "Job Supplies" else cn), a) :: st.accountCache } := by
              unfold findAccount
              simp only [hl, hq, hb, hf]
            rw [he]
            exact accountCache_cons_cacheLe st a hl
          | none =>
            cases allAccounts with
            | cons a tl =>
              have he : (findAccount env st cn).2 =
                  { st with accountCache :=
                      ((if cn.isEmpty then "Job Supplies" else cn), a) :: st.accountCache } := by
                unfold findAccount
                simp only [hl, hq, hb, hf]
              rw [he]
              exact accountCache_cons_cacheLe st a hl
            | nil =>
              have he : (findAccount env st cn).2 = st := by
                unfold findAccount
                simp only [hl, hq, hb, hf]
              rw [he]
              exact cacheLe_refl st

lemma resolveEntities_cacheLe (env : SyncEnv) (st : MatcherState) (r : Receipt) :
    cacheLe st (resolveEntities env st r).2 := by
  unfold resolveEntities
  simp only
  refine cacheLe_trans ?_ (findAccount_cacheLe env _ _)
  split
  · exact cacheLe_trans (findOrCreateVendor_cacheLe env st _)
      (findOrCreateCustomer_cacheLe env _ _)
  · exact findOrCreateVendor_cacheLe env st _

lemma writeReceipt_st (env : SyncEnv) (r3 : Receipt) (st3 : MatcherState) :
    (writeReceipt env r3 st3).st = st3 := by
  unfold writeReceipt
  rcases findMatchingTransaction env r3 with _ | txn
  · rcases env.createExpenseResult with e | c <;> rfl
  · rcases env.updateTxnResult with e | u <;> rfl

lemma syncReceipt_cacheLe (env : SyncEnv) (st : MatcherState) (r : Receipt) :
    cacheLe st (syncReceipt env st r).st := by
  unfold syncReceipt
  simp only
  rw [writeReceipt_st]
  exact resolveEntities_cacheLe env st r

lemma runPipeline_cacheLe (env : PipelineEnv) (st : MatcherState) :
    cacheLe st (runPipeline env st).1 := by
  unfold runPipeline
  split
  · exact cacheLe_refl st
  · have hgen : ∀ (rs : List Receipt) (acc : MatcherState × List SyncOutcome),
        cacheLe acc.1 (rs.foldl
          (fun acc r =>
            let o := syncReceipt env.sync acc.1 r
            (o.st, acc.2 ++ [o])) acc).1 := by
      intro rs
      induction rs with
      | nil => intro acc; exact cacheLe_refl _
      | cons x xs ih =>
        intro acc
        rw [List.foldl_cons]
        exact cacheLe_trans (syncReceipt_cacheLe env.sync acc.1 x)
          (ih ((syncReceipt env.sync acc.1 x).st, acc.2 ++ [syncReceipt env.sync acc.1 x]))
    exact hgen env.receipts (st, [])

/-! ## C8 — cache lifetime across pipeline runs -/

/-- C8 counterexample: the vendor entity cached during the first
pipeline run is still in the cache when the second run starts, and the
second run resolves the vendor from that stale entry (id 1) even though
the ledger now answers with a different entity (id 2) — nothing
invalidates the caches between runs. -/
theorem cache_entry_survives_runs :
    cacheStateAfterRun1.vendorCache.lookup "The Home Depot"
      = some { id := 1, name := "The Home Depot" }
    ∧ ((runPipeline cachePipeline2 cacheStateAfterRun1).2.map
        fun o => o.receipt.vendor.qboVendorId) = [some 1]
    ∧ cacheRunEnv2.vendorQuery "The Home Depot"
      = .ok [{ id := 2, name := "The Home Depot" }] :=
  ⟨rfl, rfl, rfl⟩

/-- C8 amended: `clearCaches` empties all three caches but the pipeline
never invokes it — the matcher is a process-lifetime singleton, so no
cache entry is invalidated by a run: every entry present when a run
starts is still present (with the same entity) when the run ends, and is
therefore visible to the next run. -/
theorem caches_not_invalidated_between_runs :
    (∀ (env : PipelineEnv) (st : MatcherState) (k : String) (v : Entity),
      (st.vendorCache.lookup k = some v →
        (runPipeline env st).1.vendorCache.lookup k = some v)
      ∧ (st.customerCache.lookup k = some v →
        (runPipeline env st).1.customerCache.lookup k = some v)
      ∧ (st.accountCache.lookup k = some v →
        (runPipeline env st).1.accountCache.lookup k = some v))
    ∧ clearCaches.vendorCache = []
    ∧ clearCaches.customerCache = []
    ∧ clearCaches.accountCache = [] := by
  refine ⟨?_, rfl, rfl, rfl⟩
  intro env st k v
  have h := runPipeline_cacheLe env st
  exact ⟨h.1 k v, h.2.1 k v, h.2.2 k v⟩

/-- C8 witness: the concrete first-run cache entry survives the second
run untouched. -/
theorem caches_not_invalidated_between_runs_witness :
    (runPipeline cachePipeline2 cacheStateAfterRun1).1.vendorCache.lookup "The Home Depot"
      = some { id := 1, name := "The Home Depot" } :=
  (caches_not_invalidated_between_runs.1 cachePipeline2 cacheStateAfterRun1
    "The Home Depot" { id := 1, name := "The Home Depot" }).1 rfl

/-! ## Confidence lemmas -/

lemma labelOfScore_mono {a b : Nat} (h : a ≤ b) :
    (labelOfScore a).rank ≤ (labelOfScore b).rank := by
  unfold labelOfScore
  split_ifs <;> simp [Confidence.rank] <;> omega

lemma ite_le_ite_of_imp {c1 c2 : Prop} [Decidable c1] [Decidable c2]
    (k : Nat) (h : c1 → c2) :
    (if c1 then k else 0) ≤ (if c2 then k else 0) := by
  by_cases hc : c1
  · rw [if_pos hc, if_pos (h hc)]
  · rw [if_neg hc]
    exact Nat.zero_le _

/-! ## C6 — confidence point scheme and monotonicity -/

/-- C6: `calculateConfidence` is exactly the claimed point scheme over
the five presence flags, and the scheme is monotone: any result whose
flags dominate another's gets at least as high a label; in particular
every result is at least the empty result's label `low`. -/
theorem confidence_scheme_monotone :
    (∀ r : ParsedReceipt,
      calculateConfidence r =
        claimConfidence (qTruthy r.total) r.date.isSome
          (sTruthy r.orderNumber || sTruthy r.invoiceNumber)
          (sTruthy r.cardLast4) (decide (0 < r.lineItems.length)))
    ∧ (∀ r1 r2 : ParsedReceipt, confFlagsLe r1 r2 = true →
        (calculateConfidence r1).rank ≤ (calculateConfidence r2).rank)
    ∧ calculateConfidence emptyParsed = .low
    ∧ (∀ r : ParsedReceipt,
        (calculateConfidence emptyParsed).rank ≤ (calculateConfidence r).rank) := by
  refine ⟨?_, ?_, rfl, fun r => Nat.zero_le _⟩
  · intro r
    unfold calculateConfidence confidenceScore labelOfScore claimConfidence
    by_cases h5 : 0 < r.lineItems.length <;> simp [h5]
  · intro r1 r2 h
    unfold confFlagsLe at h
    simp only [Bool.and_eq_true, Bool.or_eq_true, Bool.not_eq_true'] at h
    obtain ⟨⟨⟨⟨h1, h2⟩, h3⟩, h4⟩, h5⟩ := h
    unfold calculateConfidence
    apply labelOfScore_mono
    unfold confidenceScore
    have e1 : (if qTruthy r1.total then 2 else 0) ≤ (if qTruthy r2.total then 2 else 0) := by
      apply ite_le_ite_of_imp
      intro hx
      rcases h1 with h1 | h1
      · rw [hx] at h1; cases h1
      · exact h1
    have e2 : (if r1.date.isSome then 2 else 0) ≤ (if r2.date.isSome then 2 else 0) := by
      apply ite_le_ite_of_imp
      intro hx
      rcases h2 with h2 | h2
      · rw [hx] at h2; cases h2
      · exact h2
    have e3 : (if sTruthy r1.orderNumber || sTruthy r1.invoiceNumber then 1 else 0)
        ≤ (if sTruthy r2.orderNumber || sTruthy r2.invoiceNumber then 1 else 0) := by
      apply ite_le_ite_of_imp
      intro hx
      rcases h3 with h3 | h3
      · rw [Bool.or_eq_true] at hx
        rcases hx with hx | hx
        · rw [hx] at h3; simp at h3
        · rw [hx] at h3; simp at h3
      · rw [Bool.or_eq_true]
        exact h3
    have e4 : (if sTruthy r1.cardLast4 then 1 else 0)
        ≤ (if sTruthy r2.cardLast4 then 1 else 0) := by
      apply ite_le_ite_of_imp
      intro hx
      rcases h4 with h4 | h4
      · rw [hx] at h4; cases h4
      · exact h4
    have e5 : (if 0 < r1.lineItems.length then 1 else 0)
        ≤ (if 0 < r2.lineItems.length then 1 else 0) := by
      apply ite_le_ite_of_imp
      intro hx
      rcases h5 with h5 | h5
      · rw [decide_eq_false_iff_not] at h5; exact absurd hx h5
      · exact of_decide_eq_true h5
    omega

/-- C6 witness: the empty result keeps label `low` after adding a bare
total, and the flag order is realized by a concrete pair. -/
theorem confidence_scheme_monotone_witness :
    (calculateConfidence emptyParsed).rank
      ≤ (calculateConfidence { emptyParsed with total := some 5 }).rank :=
  confidence_scheme_monotone.2.1 emptyParsed { emptyParsed with total := some 5 } (by decide)

/-! ## C9 — amounts are not normalized to cents -/

/-- C9 counterexample: `parseCurrency` keeps the third decimal digit —
`"5.999"` parses to `5999/1000`, which is not a whole number of cents —
and the matcher's delta comparison consumes that unrounded value: a
ledger candidate of exactly `6` scores the `< 0.10` tier (80), not the
exact-match tier (100) that cents-normalized values (`6.00` vs `6.00`)
would produce. -/
theorem parseCurrency_unrounded :
    parseCurrency "5.999" = some (5999/1000)
    ∧ ¬ centsPrecision ((5999 : ℚ)/1000)
    ∧ amountScore 6 (parseCurrency "5.999") = 80
    ∧ amountScore 6 (some 6) = 100 := by
  have hp : parseCurrency "5.999" = some (5999/1000) := by
    simp +decide [parseCurrency, parseFloatQ, digitsToNat, isDigitChar]
    norm_num
  refine ⟨hp, ?_, ?_, ?_⟩
  · unfold centsPrecision
    norm_num [Rat.den_eq_one_iff]
  · rw [hp]
    simp only [amountScore]
    rw [show |(6:ℚ) - 5999/1000| = 1/1000 by
      rw [show (6:ℚ) - 5999/1000 = 1/1000 by norm_num]
      exact abs_of_pos (by norm_num)]
    norm_num
  · simp only [amountScore]
    simp [sub_self]

/-! Helper lemmas about `takeWhile`/`dropWhile` over an all-satisfying
prefix, used to characterize `parseFloatQ`. -/

lemma takeWhile_append_all {p : Char → Bool} :
    ∀ (l rest : List Char), (∀ c ∈ l, p c = true) →
      (l ++ rest).takeWhile p = l ++ rest.takeWhile p := by
  intro l
  induction l with
  | nil => intro rest _; rfl
  | cons x xs ih =>
    intro rest h
    have hx : p x = true := h x (List.mem_cons_self x xs)
    simp only [List.cons_append, List.takeWhile_cons, hx, if_true]
    rw [ih rest (fun c hc => h c (List.mem_cons_of_mem x hc))]

lemma dropWhile_append_all {p : Char → Bool} :
    ∀ (l rest : List Char), (∀ c ∈ l, p c = true) →
      (l ++ rest).dropWhile p = rest.dropWhile p := by
  intro l
  induction l with
  | nil => intro rest _; rfl
  | cons x xs ih =>
    intro rest h
    have hx : p x = true := h x (List.mem_cons_self x xs)
    simp only [List.cons_append, List.dropWhile_cons, hx, if_true]
    exact ih rest (fun c hc => h c (List.mem_cons_of_mem x hc))

lemma takeWhile_eq_self_of_all {p : Char → Bool} (l : List Char)
    (h : ∀ c ∈ l, p c = true) : l.takeWhile p = l := by
  have := takeWhile_append_all l [] h
  simpa using this

/-- C9 amended: dates are normalized to `YYYY-MM-DD` (day numbers in the
model), but amounts are plain `parseFloat` results: every decimal string
parses to its exact rational value with no rounding to cents, and the
matcher's tier comparison is a function of the exact unrounded absolute
difference. -/
theorem amounts_parsed_unrounded :
    (∀ (intDigits fracDigits : List Char),
      (∀ c ∈ intDigits, isDigitChar c = true) →
      (∀ c ∈ fracDigits, isDigitChar c = true) →
      intDigits ≠ [] →
      parseFloatQ (intDigits ++ '.' :: fracDigits) =
        some ((digitsToNat intDigits : ℚ)
          + (digitsToNat fracDigits : ℚ) / (10 ^ fracDigits.length : ℚ)))
    ∧ (∀ a b c d : ℚ, |a - b| = |c - d| →
        amountScore a (some b) = amountScore c (some d)) := by
  constructor
  · intro ints fracs hints hfracs hne
    have hdot : isDigitChar '.' = false := rfl
    have h1 : (ints ++ '.' :: fracs).takeWhile isDigitChar = ints := by
      rw [takeWhile_append_all ints ('.' :: fracs) hints]
      simp [List.takeWhile_cons, hdot]
    have h2 : (ints ++ '.' :: fracs).dropWhile isDigitChar = '.' :: fracs := by
      rw [dropWhile_append_all ints ('.' :: fracs) hints]
      simp [List.dropWhile_cons, hdot]
    have h3 : fracs.takeWhile isDigitChar = fracs := takeWhile_eq_self_of_all fracs hfracs
    have hie : ints.isEmpty = false := by simp [List.isEmpty_iff, hne]
    simp only [parseFloatQ, h1, h2, h3]
    simp [hie]
  · intro a b c d h
    unfold amountScore
    simp only
    rw [h]

/-- C9 witness: the characterization applied to the digits of `5.999`,
and tier invariance applied to two pairs with equal deltas. -/
theorem amounts_parsed_unrounded_witness :
    parseFloatQ (['5'] ++ '.' :: ['9', '9', '9'])
      = some ((digitsToNat ['5'] : ℚ)
          + (digitsToNat ['9', '9', '9'] : ℚ) / (10 ^ (['9', '9', '9'].length) : ℚ))
    ∧ amountScore 2 (some 1) = amountScore 10 (some 9) := by
  constructor
  · exact amounts_parsed_unrounded.1 ['5'] ['9', '9', '9'] (by decide) (by decide) (by decide)
  · exact amounts_parsed_unrounded.2 2 1 10 9 (by norm_num)

end RLT
